import Mathlib

/-!
Verification of the KUHUL PoC event-sourcing core (`kuhul_poc/cli.py`,
`kuhul_poc/providers.py`): a shallow embedding of the JSON data model, the
replay fold, the command constructor, the chat subcommand and the chat
provider client, together with theorems settling the specified properties.
-/

namespace Kuhul

/-- A JSON value, as produced by Python's `json.loads`: `null` maps to
Python `None`, objects keep insertion order as an association list with
distinct keys. Integers suffice for the payloads the claims touch. -/
inductive Json where
  | null : Json
  | bool : Bool → Json
  | num  : Int → Json
  | str  : String → Json
  | arr  : List Json → Json
  | obj  : List (String × Json) → Json

mutual

/-- Decidable equality on JSON values (the derive handler does not support
the nested `List` occurrences, so it is spelled out). -/
def Json.decEq : (a b : Json) → Decidable (a = b)
  | .null, .null => .isTrue rfl
  | .bool a, .bool b =>
    if h : a = b then .isTrue (by rw [h]) else .isFalse (fun hh => h (Json.bool.inj hh))
  | .num a, .num b =>
    if h : a = b then .isTrue (by rw [h]) else .isFalse (fun hh => h (Json.num.inj hh))
  | .str a, .str b =>
    if h : a = b then .isTrue (by rw [h]) else .isFalse (fun hh => h (Json.str.inj hh))
  | .arr as, .arr bs =>
    match Json.decEqList as bs with
    | .isTrue h => .isTrue (by rw [h])
    | .isFalse h => .isFalse (fun hh => h (Json.arr.inj hh))
  | .obj as, .obj bs =>
    match Json.decEqObj as bs with
    | .isTrue h => .isTrue (by rw [h])
    | .isFalse h => .isFalse (fun hh => h (Json.obj.inj hh))
  | .null, .bool _ => .isFalse nofun
  | .null, .num _ => .isFalse nofun
  | .null, .str _ => .isFalse nofun
  | .null, .arr _ => .isFalse nofun
  | .null, .obj _ => .isFalse nofun
  | .bool _, .null => .isFalse nofun
  | .bool _, .num _ => .isFalse nofun
  | .bool _, .str _ => .isFalse nofun
  | .bool _, .arr _ => .isFalse nofun
  | .bool _, .obj _ => .isFalse nofun
  | .num _, .null => .isFalse nofun
  | .num _, .bool _ => .isFalse nofun
  | .num _, .str _ => .isFalse nofun
  | .num _, .arr _ => .isFalse nofun
  | .num _, .obj _ => .isFalse nofun
  | .str _, .null => .isFalse nofun
  | .str _, .bool _ => .isFalse nofun
  | .str _, .num _ => .isFalse nofun
  | .str _, .arr _ => .isFalse nofun
  | .str _, .obj _ => .isFalse nofun
  | .arr _, .null => .isFalse nofun
  | .arr _, .bool _ => .isFalse nofun
  | .arr _, .num _ => .isFalse nofun
  | .arr _, .str _ => .isFalse nofun
  | .arr _, .obj _ => .isFalse nofun
  | .obj _, .null => .isFalse nofun
  | .obj _, .bool _ => .isFalse nofun
  | .obj _, .num _ => .isFalse nofun
  | .obj _, .str _ => .isFalse nofun
  | .obj _, .arr _ => .isFalse nofun

/-- Decidable equality on JSON arrays. -/
def Json.decEqList : (as bs : List Json) → Decidable (as = bs)
  | [], [] => .isTrue rfl
  | a :: as, b :: bs =>
    match Json.decEq a b with
    | .isFalse h => .isFalse (fun hh => h (by injection hh))
    | .isTrue h1 =>
      match Json.decEqList as bs with
      | .isTrue h2 => .isTrue (by rw [h1, h2])
      | .isFalse h2 => .isFalse (fun hh => h2 (by injection hh))
  | [], _ :: _ => .isFalse nofun
  | _ :: _, [] => .isFalse nofun

/-- Decidable equality on JSON object field lists. -/
def Json.decEqObj : (as bs : List (String × Json)) → Decidable (as = bs)
  | [], [] => .isTrue rfl
  | (k1, v1) :: as, (k2, v2) :: bs =>
    if hk : k1 = k2 then
      match Json.decEq v1 v2 with
      | .isFalse h => .isFalse (fun hh => by
          injection hh with h1 h2
          exact h (congrArg Prod.snd h1))
      | .isTrue hv =>
        match Json.decEqObj as bs with
        | .isTrue h2 => .isTrue (by rw [hk, hv, h2])
        | .isFalse h2 => .isFalse (fun hh => h2 (by injection hh))
    else .isFalse (fun hh => by
      injection hh with h1 h2
      exact hk (congrArg Prod.fst h1))
  | [], _ :: _ => .isFalse nofun
  | _ :: _, [] => .isFalse nofun

end

instance : DecidableEq Json := Json.decEq

/-- Decidable equality on `Except`, needed to evaluate concrete replay runs. -/
instance {ε α : Type} [DecidableEq ε] [DecidableEq α] : DecidableEq (Except ε α) := fun a b =>
  match a, b with
  | .ok x, .ok y =>
    if h : x = y then .isTrue (by rw [h]) else .isFalse (fun hh => h (by injection hh))
  | .error x, .error y =>
    if h : x = y then .isTrue (by rw [h]) else .isFalse (fun hh => h (by injection hh))
  | .ok _, .error _ => .isFalse nofun
  | .error _, .ok _ => .isFalse nofun

/-- A JSON object (Python dict with string keys), field order preserved. -/
abbrev JObj := List (String × Json)

/-- First binding of key `k` (Python dicts have unique keys). -/
def jget (o : JObj) (k : String) : Option Json :=
  (o.find? (fun p => p.1 = k)).map (fun p => p.2)

/-- Python `d.get(k, default)`. -/
def jgetD (o : JObj) (k : String) (d : Json) : Json :=
  (jget o k).getD d

/-- Python `d.get(k)`: absent keys yield `None`, embedded as `Json.null`. -/
def jgetN (o : JObj) (k : String) : Json :=
  (jget o k).getD Json.null

/-- Python truthiness of a JSON value (`None`, `False`, `0`, `""`, `[]`,
`{}` are falsy; everything else truthy). -/
def Json.truthy : Json → Bool
  | .null => false
  | .bool b => b
  | .num n => n != 0
  | .str s => !s.isEmpty
  | .arr xs => !xs.isEmpty
  | .obj fs => !fs.isEmpty

/-- Whether a JSON value is an object (Python `isinstance(x, dict)`). -/
def Json.isObj : Json → Bool
  | .obj _ => true
  | _ => false

/-- Whether a JSON value is a string (Python `isinstance(x, str)`). -/
def Json.isStr : Json → Bool
  | .str _ => true
  | _ => false

/-- Modelled from the spec: `state.py` is not under `src/`. §3 State
Projection: an ordered list of component records plus the current theme. -/
structure KuhulState where
  components : List Json
  theme : String
deriving DecidableEq

/-- Modelled from the spec: the spec fixes only that `theme` "defaults to a
fixed value at initialization"; `"light"` is chosen as that concrete value
(no claim depends on which member of the closed theme set it is). -/
def defaultTheme : String := "light"

/-- Fresh `KuhulState()`: empty components, default theme. -/
def KuhulState.init : KuhulState := ⟨[], defaultTheme⟩

/-- One iteration of the replay fold, `cli.py` lines 200-212.  A truthy
non-dict `data` makes Python's `data.get("kind")` raise `AttributeError`,
embedded as `Except.error`. -/
def replayStep (st : KuhulState) (e : JObj) : Except String KuhulState :=
  if jgetN e "topic" ≠ Json.str "state.changed" then .ok st
  else
    let dataRaw := jgetD e "data" (Json.obj [])
    let data := if dataRaw.truthy then dataRaw else Json.obj []
    match data with
    | Json.obj fs =>
      if jgetN fs "kind" = Json.str "component.created" then
        match jgetN fs "component" with
        | Json.obj cfs => .ok ⟨st.components ++ [Json.obj cfs], st.theme⟩
        | _ => .ok st
      else if jgetN fs "kind" = Json.str "theme.changed" then
        match jgetN fs "to" with
        | Json.str s => if s = "dark" || s = "light" then .ok ⟨st.components, s⟩ else .ok st
        | _ => .ok st
      else .ok st
    | _ => .error "AttributeError: event data has no attribute get"

/-- The replay fold of `cli.py` lines 199-212: fold `replayStep` over the
event records in file order, starting from a fresh `KuhulState`. -/
def replay (events : List JObj) : Except String KuhulState :=
  events.foldlM replayStep KuhulState.init

/-- The replay step exactly as claim C1 words it (for comparison with
`replayStep`): for a `state.changed` event, kind `component.created`
appends `data.component` (unconditionally), kind `theme.changed` sets the
theme only for a recognized theme, and every other topic and kind leaves
the State unchanged (never failing). -/
def replayStepClaim (st : KuhulState) (e : JObj) : KuhulState :=
  if jgetN e "topic" = Json.str "state.changed" then
    match jgetD e "data" (Json.obj []) with
    | Json.obj fs =>
      if jgetN fs "kind" = Json.str "component.created" then
        ⟨st.components ++ [jgetN fs "component"], st.theme⟩
      else if jgetN fs "kind" = Json.str "theme.changed" then
        match jgetN fs "to" with
        | Json.str s => if s = "dark" || s = "light" then ⟨st.components, s⟩ else st
        | _ => st
      else st
    | _ => st
  else st

/-- The replay step as the amended claim C1 describes it: as C1, except
that a `component.created` payload is appended only when `data.component`
is a JSON object (otherwise the event is skipped), and a `state.changed`
event whose `data` is truthy but not an object makes replay fail. -/
def replayStepAmended (st : KuhulState) (e : JObj) : Except String KuhulState :=
  if jgetN e "topic" = Json.str "state.changed" then
    let d := jgetD e "data" (Json.obj [])
    if d.truthy then
      match d with
      | Json.obj fs =>
        if jgetN fs "kind" = Json.str "component.created" then
          match jgetN fs "component" with
          | Json.obj c => .ok ⟨st.components ++ [Json.obj c], st.theme⟩
          | _ => .ok st
        else if jgetN fs "kind" = Json.str "theme.changed" then
          match jgetN fs "to" with
          | Json.str s => if s = "dark" || s = "light" then .ok ⟨st.components, s⟩ else .ok st
          | _ => .ok st
        else .ok st
      | _ => .error "AttributeError: event data has no attribute get"
    else .ok st
  else .ok st

/-- The component record carried by the first scenario event. -/
def buttonComponent : Json :=
  Json.obj [("id", Json.str "cmp_100_0"), ("type", Json.str "button"), ("props", Json.obj [])]

/-- The component record carried by the third scenario event. -/
def cardComponent : Json :=
  Json.obj [("id", Json.str "cmp_102_2"), ("type", Json.str "card"), ("props", Json.obj [])]

/-- Scenario 3 of the spec: the persisted events
`[component.created(button), theme.changed(dark), component.created(card)]`. -/
def scenarioEvents : List JObj :=
  [[("@type", Json.str "kuhul.event"), ("id", Json.str "evt_100_0"),
    ("ts_ms", Json.num 100), ("caused_by", Json.str "cmd_100_0"),
    ("topic", Json.str "state.changed"),
    ("data", Json.obj [("kind", Json.str "component.created"), ("component", buttonComponent)])],
   [("@type", Json.str "kuhul.event"), ("id", Json.str "evt_101_1"),
    ("ts_ms", Json.num 101), ("caused_by", Json.str "cmd_101_1"),
    ("topic", Json.str "state.changed"),
    ("data", Json.obj [("kind", Json.str "theme.changed"), ("to", Json.str "dark")])],
   [("@type", Json.str "kuhul.event"), ("id", Json.str "evt_102_2"),
    ("ts_ms", Json.num 102), ("caused_by", Json.str "cmd_102_2"),
    ("topic", Json.str "state.changed"),
    ("data", Json.obj [("kind", Json.str "component.created"), ("component", cardComponent)])]]

/-- An event record is safe for the fold when, if its topic is
`state.changed`, its `data` (defaulted to `{}`) is an object whenever it is
truthy — exactly the events on which Python's `data.get` cannot raise. -/
def SafeEvent (e : JObj) : Bool :=
  if jgetN e "topic" = Json.str "state.changed" then
    let d := jgetD e "data" (Json.obj [])
    !d.truthy || d.isObj
  else true

/-- Whether an event record's topic is `state.changed`. -/
def isStateChanged (e : JObj) : Bool :=
  decide (jgetN e "topic" = Json.str "state.changed")

/-- The `replay` subcommand of `cli.py` lines 189-218, seen at the level of
the two per-session JSON-Lines files: it opens and folds only the event
log; the commands log is never read (it does not occur in the body). -/
def replaySubcommand (eventLog : List JObj) (_commandsLog : List JObj) : Except String KuhulState :=
  replay eventLog

/-- How a call into `providers.py` can fail: `providerError` embeds a raised
`ProviderError`; `pythonError` embeds any other uncaught Python exception
(`AttributeError`, `IndexError`, `TypeError`, `KeyError`). -/
inductive ChatFailure where
  | providerError (msg : String)
  | pythonError (msg : String)
deriving DecidableEq

/-- Provider configuration, `providers.py` lines 15-20. -/
structure ProviderConfig where
  name : String
  base_url : String
  api_key_env : Option String
  kind : String
deriving DecidableEq

/-- The provider table, `providers.py` lines 23-60, insertion order kept. -/
def PROVIDERS : List (String × ProviderConfig) :=
  [("openai", ⟨"openai", "https://api.openai.com/v1", some "OPENAI_API_KEY", "openai"⟩),
   ("mistral", ⟨"mistral", "https://api.mistral.ai/v1", some "MISTRAL_API_KEY", "openai"⟩),
   ("deepseek", ⟨"deepseek", "https://api.deepseek.com/v1", some "DEEPSEEK_API_KEY", "openai"⟩),
   ("codestral", ⟨"codestral", "https://codestral.mistral.ai/v1", some "CODESTRAL_API_KEY", "openai"⟩),
   ("claude", ⟨"claude", "https://api.anthropic.com/v1", some "ANTHROPIC_API_KEY", "anthropic"⟩),
   ("inference", ⟨"inference", "http://localhost:11434/v1", some "INFERENCE_API_KEY", "openai"⟩)]

/-- What the single outbound POST of a chat request comes back as: a parsed
JSON body, an HTTP error, a connection error, or an unparseable body. The
network itself is an oracle parameter of the embedding. -/
inductive PostOutcome where
  | ok (data : Json)
  | httpError (code : Nat) (detail : String)
  | urlError (reason : String)
  | jsonError
deriving DecidableEq

/-- Python truthiness of an optional string (`None` and `""` are falsy). -/
def optTruthy : Option String → Bool
  | none => false
  | some s => !s.isEmpty

/-- Embedding of `_post_json`, `providers.py` lines 185-198: every HTTP,
connection, or JSON-decoding failure is turned into a `ProviderError`. -/
def post_json (outcome : PostOutcome) : Except ChatFailure Json :=
  match outcome with
  | .ok d => .ok d
  | .httpError code detail => .error (.providerError ("HTTP " ++ toString code ++ ": " ++ detail))
  | .urlError reason => .error (.providerError ("Connection error: " ++ reason))
  | .jsonError => .error (.providerError "Invalid JSON response")

/-- Python `x[0]` on a JSON value: head of a list, first character of a
nonempty string; everything else raises (`IndexError`, `KeyError` for a
dict, `TypeError` otherwise). -/
def pyIndex0 : Json → Except ChatFailure Json
  | .arr (h :: _) => .ok h
  | .arr [] => .error (.pythonError "IndexError: list index out of range")
  | .str s =>
    if s.isEmpty then .error (.pythonError "IndexError: string index out of range")
    else .ok (.str (String.singleton s.front))
  | .obj _ => .error (.pythonError "KeyError: 0")
  | _ => .error (.pythonError "TypeError: object is not subscriptable")

/-- Python `x.get(k)` on a JSON value: only dicts have `.get`; anything
else raises `AttributeError`. -/
def pyGetMethod (j : Json) (k : String) : Except ChatFailure Json :=
  match j with
  | .obj fs => .ok (jgetN fs k)
  | _ => .error (.pythonError "AttributeError: object has no attribute get")

/-- Content extraction of `_request_openai_compatible`, `providers.py`
lines 134-140: `content` starts as `""`; if the body is a dict with truthy
`choices`, the first choice's `message.content` (or its `text`) is taken,
each `or`-defaulted exactly as in the source. -/
def openai_content (data : Json) : Except ChatFailure Json :=
  match data with
  | Json.obj fs =>
    let choicesRaw := jgetN fs "choices"
    let choices := if choicesRaw.truthy then choicesRaw else Json.arr []
    if choices.truthy then
      match pyIndex0 choices with
      | .error err => .error err
      | .ok first =>
        match pyGetMethod first "message" with
        | .error err => .error err
        | .ok mraw =>
          let message_obj := if mraw.truthy then mraw else Json.obj []
          match pyGetMethod message_obj "content" with
          | .error err => .error err
          | .ok c1 =>
            if c1.truthy then .ok c1
            else
              match pyGetMethod first "text" with
              | .error err => .error err
              | .ok c2 => if c2.truthy then .ok c2 else .ok (Json.str "")
    else .ok (Json.str "")
  | _ => .ok (Json.str "")

/-- Content extraction of `_request_anthropic`, `providers.py` lines
174-179: the first element of a truthy `content` list supplies `text`. -/
def anthropic_content (data : Json) : Except ChatFailure Json :=
  match data with
  | Json.obj fs =>
    let partsRaw := jgetN fs "content"
    let parts := if partsRaw.truthy then partsRaw else Json.arr []
    if parts.truthy then
      match pyIndex0 parts with
      | .error err => .error err
      | .ok first =>
        match pyGetMethod first "text" with
        | .error err => .error err
        | .ok t => if t.truthy then .ok t else .ok (Json.str "")
    else .ok (Json.str "")
  | _ => .ok (Json.str "")

/-- Embedding of `_request_openai_compatible`, `providers.py` lines
107-143: POST, extract the content, and reject a falsy content as an empty
response. The request payload only influences the oracle's outcome, so it
is elided; `url` is the computed request URL. -/
def request_openai_compatible (outcome : PostOutcome) (url : String) :
    Except ChatFailure (Json × Json) :=
  match post_json outcome with
  | .error err => .error err
  | .ok data =>
    match openai_content data with
    | .error err => .error err
    | .ok content =>
      if content.truthy then .ok (content, Json.obj [("request_url", Json.str url)])
      else .error (.providerError "Empty response from provider")

/-- Embedding of `_request_anthropic`, `providers.py` lines 146-182. -/
def request_anthropic (outcome : PostOutcome) (url : String) :
    Except ChatFailure (Json × Json) :=
  match post_json outcome with
  | .error err => .error err
  | .ok data =>
    match anthropic_content data with
    | .error err => .error err
    | .ok content =>
      if content.truthy then .ok (content, Json.obj [("request_url", Json.str url)])
      else .error (.providerError "Empty response from provider")

/-- Python `s.rstrip("/")`: drop every trailing `'/'`, computably over the
character list. -/
def rstripSlashes (s : String) : String :=
  String.mk ((s.data.reverse.dropWhile (fun ch => ch = '/')).reverse)

/-- Python `(base_url or config.base_url).rstrip("/")`. -/
def resolvedBase (config : ProviderConfig) (base_url : Option String) : String :=
  rstripSlashes ((if optTruthy base_url then base_url else some config.base_url).getD "")

/-- Python `api_key or (os.getenv(config.api_key_env or "") if
config.api_key_env else None)`. -/
def resolvedKey (env : String → Option String) (config : ProviderConfig)
    (api_key : Option String) : Option String :=
  if optTruthy api_key then api_key
  else if optTruthy config.api_key_env then env (config.api_key_env.getD "")
  else none

/-- Embedding of `request_chat`, `providers.py` lines 63-104. `env` is
`os.getenv`; `outcome` is what the (single) network request would return,
consulted only on the branches that reach `_post_json`. -/
def request_chat (env : String → Option String) (outcome : PostOutcome)
    (provider : String) (base_url api_key : Option String) :
    Except ChatFailure (Json × Json) :=
  match (PROVIDERS.find? (fun p => p.1 = provider)).map (fun p => p.2) with
  | none => .error (.providerError ("Unsupported provider: " ++ provider))
  | some config =>
    if optTruthy config.api_key_env && !optTruthy (resolvedKey env config api_key) then
      .error (.providerError
        ("Missing API key. Set " ++ config.api_key_env.getD "" ++ " or pass --api-key for "
          ++ provider ++ "."))
    else if config.kind = "anthropic" then
      request_anthropic outcome (resolvedBase config base_url ++ "/messages")
    else
      request_openai_compatible outcome (resolvedBase config base_url ++ "/chat/completions")

/-- A response body for an openai-style provider is benign when the path
`providers.py` lines 134-140 walks through it meets only the types the code
expects: if a truthy first choice is taken it is an object, its truthy
`message` is an object, and the truthy `content`/`text` finally picked is a
string. Non-dict bodies are benign (they fall through to `content = ""`). -/
def goodOpenaiData (data : Json) : Bool :=
  match data with
  | Json.obj fs =>
    let choicesRaw := jgetN fs "choices"
    let choices := if choicesRaw.truthy then choicesRaw else Json.arr []
    if choices.truthy then
      match choices with
      | Json.arr (first :: _) =>
        match first with
        | Json.obj ffs =>
          let mraw := jgetN ffs "message"
          let message_obj := if mraw.truthy then mraw else Json.obj []
          match message_obj with
          | Json.obj mfs =>
            let c1 := jgetN mfs "content"
            if c1.truthy then c1.isStr
            else
              let c2 := jgetN ffs "text"
              if c2.truthy then c2.isStr else true
          | _ => false
        | _ => false
      | _ => false
    else true
  | _ => true

/-- The anthropic analogue of `goodOpenaiData`, for `providers.py` lines
174-179: a truthy first `content` part must be an object whose truthy
`text` is a string. -/
def goodAnthropicData (data : Json) : Bool :=
  match data with
  | Json.obj fs =>
    let partsRaw := jgetN fs "content"
    let parts := if partsRaw.truthy then partsRaw else Json.arr []
    if parts.truthy then
      match parts with
      | Json.arr (first :: _) =>
        match first with
        | Json.obj ffs =>
          let t := jgetN ffs "text"
          if t.truthy then t.isStr else true
        | _ => false
      | _ => false
    else true
  | _ => true

/-- A network outcome is benign for a provider kind when a parsed body is
benign for that kind's extraction (error outcomes always are: they become
`ProviderError`s before extraction). -/
def goodOutcomeFor (kind : String) (outcome : PostOutcome) : Bool :=
  match outcome with
  | .ok d => if kind = "anthropic" then goodAnthropicData d else goodOpenaiData d
  | _ => true

/-- Modelled from the spec: `ids.py` is not under `src/`. §4.1: the
Identifier Generator owns a monotonic counter; `next_id(kind, ts_ms)`
returns a string in the `kind` namespace embedding the timestamp and the
counter, and steps the counter. -/
structure IdGen where
  counter : Nat
deriving DecidableEq

/-- Modelled from the spec (§4.1): a fresh identifier namespaced by `kind`,
plus the stepped generator. -/
def IdGen.next_id (g : IdGen) (kind : String) (ts : Int) : String × IdGen :=
  (kind ++ ("_" ++ toString ts ++ "_" ++ toString g.counter), ⟨g.counter + 1⟩)

/-- Embedding of `make_cmd`, `cli.py` lines 23-41: the command record,
fields in insertion order, with `id` drawn from the generator in the
`"cmd"` namespace and `ts_ms` the creation time. -/
def make_cmd (g : IdGen) (session op : String) (args : Json)
    (source_kind who : String) (ts : Int) : JObj :=
  [("@type", Json.str "kuhul.command"),
   ("@v", Json.str "1.0.0"),
   ("id", Json.str (g.next_id "cmd" ts).1),
   ("ts_ms", Json.num ts),
   ("source", Json.obj [("kind", Json.str source_kind), ("who", Json.str who),
                        ("session", Json.str session)]),
   ("op", Json.str op),
   ("args", args)]

/-- An Event record as emitted through `Engine.emit_event` (fields as
passed at the `cli.py` call sites; `id` is assigned by the Engine per
§4.5, `engine.py` not being under `src/`). -/
structure Event where
  id : String
  ts_ms : Int
  caused_by : String
  topic : String
  data : Json
deriving DecidableEq

/-- Embedding of the `chat` subcommand, `cli.py` lines 220-269, after the
chat Command `cmd` has been built and appended to the commands log:
`result` is what `request_chat` did; only `ProviderError` is caught
(`except ProviderError`), so any other exception escapes `main`
(`Except.error`). On catch it emits one `ai.chat.failed` event caused by
the Command and returns 1; on success one `ai.chat.completed` event caused
by the Command and returns 0. `evt_id`/`ts` stand for the fresh event id
and emission time. -/
def chatSubcommand (cmd_id evt_id : String) (ts : Int) (provider model : String)
    (result : Except ChatFailure (Json × Json)) : Except String (List Event × Nat) :=
  match result with
  | .error (.providerError msg) =>
    .ok ([⟨evt_id, ts, cmd_id, "ai.chat.failed",
           Json.obj [("provider", Json.str provider), ("error", Json.str msg)]⟩], 1)
  | .error (.pythonError msg) => .error msg
  | .ok (content, meta) =>
    .ok ([⟨evt_id, ts, cmd_id, "ai.chat.completed",
           Json.obj [("provider", Json.str provider), ("model", Json.str model),
                     ("response", content), ("meta", meta)]⟩], 0)

/-- The component types the CLI can create (`cli.py` line 73). -/
def componentTypes : List String := ["button", "card", "chat-bubble"]

/-- The recognized themes (`cli.py` line 77, `providers` of §3's closed
theme set). -/
def themes : List String := ["dark", "light"]

/-- Modelled from the spec: `engine.py` is not under `src/`. §4.5's
`apply_command` dispatch table: `ui.create` validates the component type,
appends the full record and emits `state.changed`/`component.created`;
`ui.theme.apply` validates the theme, sets it and emits
`state.changed`/`theme.changed`; `svg.export` emits an informational event
and leaves State alone; `ai.chat` mutates nothing and emits nothing from
the Engine; any other `op` fails with an Unrecognized-Operation error
before any mutation or emission. Emitted events are returned as
`(topic, data)` pairs. -/
def apply_command (st : KuhulState) (cmd : JObj) (fresh_id : String) :
    Except String (KuhulState × List (String × Json)) :=
  match jgetN cmd "op" with
  | Json.str op =>
    if op = "ui.create" then
      match jgetN cmd "args" with
      | Json.obj afs =>
        match jgetN afs "component" with
        | Json.str c =>
          if c ∈ componentTypes then
            let record := Json.obj [("id", Json.str fresh_id), ("type", Json.str c),
                                    ("props", jgetN afs "props")]
            .ok (⟨st.components ++ [record], st.theme⟩,
                 [("state.changed",
                   Json.obj [("kind", Json.str "component.created"), ("component", record)])])
          else .error ("Invalid argument: unknown component type " ++ c)
        | _ => .error "Invalid argument: missing component"
      | _ => .error "Invalid argument: args is not a mapping"
    else if op = "ui.theme.apply" then
      match jgetN cmd "args" with
      | Json.obj afs =>
        match jgetN afs "name" with
        | Json.str n =>
          if n ∈ themes then
            .ok (⟨st.components, n⟩,
                 [("state.changed", Json.obj [("kind", Json.str "theme.changed"),
                                              ("to", Json.str n)])])
          else .error ("Invalid argument: unknown theme " ++ n)
        | _ => .error "Invalid argument: missing theme name"
      | _ => .error "Invalid argument: args is not a mapping"
    else if op = "svg.export" then
      .ok (st, [("svg.export.requested", jgetN cmd "args")])
    else if op = "ai.chat" then
      .ok (st, [])
    else .error ("Unrecognized op: " ++ op)
  | _ => .error "Unrecognized op: not a string"

/-- The operation names `apply_command` recognizes. -/
def recognizedOps : List String := ["ui.create", "ui.theme.apply", "svg.export", "ai.chat"]

/-- An Engine invocation observed from the caller: on rejection the caller
keeps its State and event log untouched (`appliedFlag = false`); on success
the new State is adopted and the emitted events are appended to the log. -/
def engineTry (st : KuhulState) (log : List (String × Json)) (cmd : JObj) (fresh_id : String) :
    (KuhulState × List (String × Json)) × Bool :=
  match apply_command st cmd fresh_id with
  | .error _ => ((st, log), false)
  | .ok (st', evts) => ((st', log ++ evts), true)

end Kuhul

namespace Kuhul

/-- The source-level replay step agrees pointwise with the amended claim's
description of it. -/
theorem replayStep_eq_amended (st : KuhulState) (e : JObj) :
    replayStep st e = replayStepAmended st e := by
  unfold replayStep replayStepAmended
  by_cases h : jgetN e "topic" = Json.str "state.changed"
  · simp only [h, ne_eq, not_true_eq_false, if_false, ite_false]
    rcases hd : jgetD e "data" (Json.obj []) with _ | b | n | s | xs | fs
    · simp [Json.truthy, jgetN, jget, List.find?]
    · cases b <;> simp [Json.truthy, jgetN, jget, List.find?]
    · by_cases hn : n = 0 <;> simp [Json.truthy, hn, jgetN, jget, List.find?]
    · by_cases hs : s.isEmpty <;> simp [Json.truthy, hs, jgetN, jget, List.find?]
    · cases xs <;> simp [Json.truthy, jgetN, jget, List.find?]
    · cases fs <;> simp [Json.truthy, jgetN, jget, List.find?]
  · simp [h]

/-- C1 is false as stated: on a `state.changed`/`component.created` event
whose `data.component` is the string `"x"`, the code skips the append
while the claimed fold appends it; and on a `state.changed` event whose
`data` is the string `"x"`, the code fails while the claimed fold leaves
the State unchanged. -/
theorem C1_counterexample :
    replayStep KuhulState.init
        [("topic", Json.str "state.changed"),
         ("data", Json.obj [("kind", Json.str "component.created"),
                            ("component", Json.str "x")])]
      ≠ .ok (replayStepClaim KuhulState.init
        [("topic", Json.str "state.changed"),
         ("data", Json.obj [("kind", Json.str "component.created"),
                            ("component", Json.str "x")])])
    ∧ replayStep KuhulState.init
        [("topic", Json.str "state.changed"), ("data", Json.str "x")]
      ≠ .ok (replayStepClaim KuhulState.init
        [("topic", Json.str "state.changed"), ("data", Json.str "x")]) := by
  decide

/-- C1 (amended): the replay fold initializes an empty State and folds the
events in file order as the amended description says — `state.changed`
events append an object-shaped `data.component` on `component.created`
(skipping a non-object one), set the theme on `theme.changed` only for a
recognized theme, fail on truthy non-object `data`, and everything else
leaves the State unchanged; in particular folding
`[component.created(button), theme.changed(dark), component.created(card)]`
yields exactly those two components in that order with theme `"dark"`. -/
theorem C1_replay_fold :
    (∀ st e, replayStep st e = replayStepAmended st e)
    ∧ replay scenarioEvents = .ok ⟨[buttonComponent, cardComponent], "dark"⟩ :=
  ⟨replayStep_eq_amended, by decide⟩

/-- A safe event record makes the replay step succeed from any state. -/
theorem replayStep_ok_of_safe (st : KuhulState) (e : JObj) (hs : SafeEvent e = true) :
    ∃ st', replayStep st e = .ok st' := by
  rw [replayStep_eq_amended]
  unfold SafeEvent at hs
  unfold replayStepAmended
  by_cases h : jgetN e "topic" = Json.str "state.changed"
  · simp only [h, if_true, ite_true] at hs ⊢
    by_cases hdt : (jgetD e "data" (Json.obj [])).truthy
    · simp only [hdt, Bool.not_true, Bool.false_or] at hs
      rcases hd : jgetD e "data" (Json.obj []) with _ | _ | _ | _ | _ | fs
      · rw [hd] at hs; simp [Json.isObj] at hs
      · rw [hd] at hs; simp [Json.isObj] at hs
      · rw [hd] at hs; simp [Json.isObj] at hs
      · rw [hd] at hs; simp [Json.isObj] at hs
      · rw [hd] at hs; simp [Json.isObj] at hs
      · rw [hd] at hdt
        simp only [hdt, if_true, ite_true]
        by_cases hk : jgetN fs "kind" = Json.str "component.created"
        · simp only [hk, if_true, ite_true]
          rcases jgetN fs "component" with _ | _ | _ | _ | _ | cfs
          · exact ⟨st, rfl⟩
          · exact ⟨st, rfl⟩
          · exact ⟨st, rfl⟩
          · exact ⟨st, rfl⟩
          · exact ⟨st, rfl⟩
          · exact ⟨⟨st.components ++ [Json.obj cfs], st.theme⟩, rfl⟩
        · simp only [hk, if_false, ite_false]
          by_cases ht : jgetN fs "kind" = Json.str "theme.changed"
          · simp only [ht, if_true, ite_true]
            rcases jgetN fs "to" with _ | _ | _ | s | _ | _
            · exact ⟨st, rfl⟩
            · exact ⟨st, rfl⟩
            · exact ⟨st, rfl⟩
            · cases hs2 : (decide (s = "dark") || decide (s = "light")) <;>
                simp only [hs2, if_true, if_false, ite_true, ite_false]
              · exact ⟨st, rfl⟩
              · exact ⟨⟨st.components, s⟩, rfl⟩
            · exact ⟨st, rfl⟩
            · exact ⟨st, rfl⟩
          · simp only [ht, if_false, ite_false]
            exact ⟨st, rfl⟩
    · simp only [Bool.not_eq_true] at hdt
      simp only [hdt, if_false, ite_false, Bool.false_eq_true]
      exact ⟨st, rfl⟩
  · simp only [h, if_false, ite_false]
    exact ⟨st, rfl⟩

/-- Folding only safe events from any start state cannot fail. -/
theorem foldlM_ok_of_safe :
    ∀ (events : List JObj) (st : KuhulState), (∀ e ∈ events, SafeEvent e = true) →
      ∃ st', events.foldlM replayStep st = .ok st'
  | [], st, _ => ⟨st, rfl⟩
  | e :: es, st, h => by
    obtain ⟨st1, h1⟩ := replayStep_ok_of_safe st e (h e (List.mem_cons_self e es))
    obtain ⟨st2, h2⟩ := foldlM_ok_of_safe es st1 (fun x hx => h x (List.mem_cons_of_mem e hx))
    exact ⟨st2, by simp [List.foldlM_cons, h1, h2, Bind.bind, Except.bind]⟩

/-- C2 is false as stated: a well-formed event object whose `data` is the
truthy non-mapping `"oops"` makes the replay fold fail (Python raises
`AttributeError` on `data.get`), not produce a State. -/
theorem C2_counterexample :
    replay [[("topic", Json.str "state.changed"), ("data", Json.str "oops")]]
      = .error "AttributeError: event data has no attribute get" := by
  decide

/-- C2 (amended): the replay fold terminates with a State on every event
sequence in which each `state.changed` event carries a `data` that is
either absent, falsy, or a mapping; in particular unrecognized topics,
unrecognized kinds and missing `data` never make it fail. A `state.changed`
event whose `data` is truthy and not a mapping is the one further failure,
beyond a structurally malformed log line. -/
theorem C2_replay_total (events : List JObj) (h : ∀ e ∈ events, SafeEvent e = true) :
    ∃ st, replay events = .ok st := by
  unfold replay
  exact foldlM_ok_of_safe events KuhulState.init h

/-- Witness: the amended C2 applied to the three scenario events. -/
theorem C2_witness : ∃ st, replay scenarioEvents = .ok st :=
  C2_replay_total scenarioEvents (by decide)

/-- C3: replay is deterministic — two runs of the fold over the same event
sequence, each from a fresh empty State, yield structurally identical
States (same component list, same theme). -/
theorem C3_replay_idempotent (events : List JObj) (st1 st2 : KuhulState)
    (h1 : replay events = .ok st1) (h2 : replay events = .ok st2) :
    st1.components = st2.components ∧ st1.theme = st2.theme := by
  rw [h1] at h2
  injection h2 with h
  exact ⟨by rw [h], by rw [h]⟩

/-- Witness: C3 applied to the two (identical) runs over the scenario
events. -/
theorem C3_witness :
    (⟨[buttonComponent, cardComponent], "dark"⟩ : KuhulState).components
        = (⟨[buttonComponent, cardComponent], "dark"⟩ : KuhulState).components
      ∧ (⟨[buttonComponent, cardComponent], "dark"⟩ : KuhulState).theme
        = (⟨[buttonComponent, cardComponent], "dark"⟩ : KuhulState).theme :=
  C3_replay_idempotent scenarioEvents _ _ (by decide) (by decide)

/-- A non-`state.changed` event is skipped by the replay step. -/
theorem replayStep_skip (st : KuhulState) (e : JObj) (h : isStateChanged e = false) :
    replayStep st e = .ok st := by
  unfold isStateChanged at h
  unfold replayStep
  simp only [decide_eq_false_iff_not] at h
  simp [h]

/-- Dropping the non-`state.changed` events does not change the fold, from
any start state. -/
theorem foldlM_filter_stateChanged :
    ∀ (events : List JObj) (st : KuhulState),
      (events.filter isStateChanged).foldlM replayStep st = events.foldlM replayStep st
  | [], _ => rfl
  | e :: es, st => by
    by_cases h : isStateChanged e
    · rw [List.filter_cons_of_pos h, List.foldlM_cons, List.foldlM_cons]
      cases hstep : replayStep st e with
      | error msg => simp [hstep, Bind.bind, Except.bind]
      | ok st' => simp [hstep, Bind.bind, Except.bind, foldlM_filter_stateChanged es st']
    · rw [List.filter_cons_of_neg (by simpa using h), List.foldlM_cons,
        replayStep_skip st e (by simpa using h)]
      simp [Bind.bind, Except.bind, foldlM_filter_stateChanged es st]

/-- C4: the reconstructed State depends only on the `state.changed` events
of the event log — removing every other event (snapshots included) gives
the same result, the commands log passed alongside the event log never
influences the result, and two runs whose event logs agree on their
`state.changed` events (and have any commands logs) reconstruct the same
State. -/
theorem C4_replay_only_state_changed :
    (∀ events : List JObj, replay (events.filter isStateChanged) = replay events)
    ∧ (∀ events c1 c2 : List JObj, replaySubcommand events c1 = replaySubcommand events c2)
    ∧ (∀ ev1 ev2 c1 c2 : List JObj,
        ev1.filter isStateChanged = ev2.filter isStateChanged →
        replaySubcommand ev1 c1 = replaySubcommand ev2 c2) := by
  refine ⟨fun events => foldlM_filter_stateChanged events KuhulState.init,
    fun _ _ _ => rfl, fun ev1 ev2 c1 c2 hf => ?_⟩
  show replay ev1 = replay ev2
  calc replay ev1 = replay (ev1.filter isStateChanged) :=
        (foldlM_filter_stateChanged ev1 KuhulState.init).symm
    _ = replay (ev2.filter isStateChanged) := by rw [hf]
    _ = replay ev2 := foldlM_filter_stateChanged ev2 KuhulState.init

/-- Witness: C4's last conjunct applied to an event log with a
`state.snapshot` event and one without, with two different commands
logs. -/
theorem C4_witness :
    replaySubcommand
        [[("topic", Json.str "state.snapshot"), ("data", Json.obj [])],
         [("topic", Json.str "state.changed"),
          ("data", Json.obj [("kind", Json.str "theme.changed"), ("to", Json.str "dark")])]]
        []
      = replaySubcommand
        [[("topic", Json.str "state.changed"),
          ("data", Json.obj [("kind", Json.str "theme.changed"), ("to", Json.str "dark")])]]
        [[("op", Json.str "ui.create")]] :=
  C4_replay_only_state_changed.2.2 _ _ _ _ (by decide)

/-- C5: after the chat Command is logged, a `ProviderError` from the
provider client yields exactly one `ai.chat.failed` event `{provider,
error}` caused by the Command's id together with a non-zero result, and a
success `(content, meta)` yields exactly one `ai.chat.completed` event
`{provider, model, response, meta}` caused by the Command's id together
with result `0`. -/
theorem C5_chat_events (cmd_id evt_id : String) (ts : Int) (provider model : String)
    (result : Except ChatFailure (Json × Json)) :
    (∀ msg, result = .error (.providerError msg) →
      ∃ n, chatSubcommand cmd_id evt_id ts provider model result
          = .ok ([⟨evt_id, ts, cmd_id, "ai.chat.failed",
                   Json.obj [("provider", Json.str provider), ("error", Json.str msg)]⟩], n)
        ∧ n ≠ 0)
    ∧ (∀ content meta, result = .ok (content, meta) →
      chatSubcommand cmd_id evt_id ts provider model result
        = .ok ([⟨evt_id, ts, cmd_id, "ai.chat.completed",
                 Json.obj [("provider", Json.str provider), ("model", Json.str model),
                           ("response", content), ("meta", meta)]⟩], 0)) := by
  constructor
  · intro msg hmsg
    subst hmsg
    exact ⟨1, rfl, one_ne_zero⟩
  · intro content meta hok
    subst hok
    rfl

/-- Witness: C5 applied to a failing and to a succeeding provider call. -/
theorem C5_witness :
    (∃ n, chatSubcommand "cmd_7_0" "evt_8_1" 9 "openai" "gpt-4o"
          (.error (.providerError "boom"))
        = .ok ([⟨"evt_8_1", 9, "cmd_7_0", "ai.chat.failed",
                 Json.obj [("provider", Json.str "openai"), ("error", Json.str "boom")]⟩], n)
      ∧ n ≠ 0)
    ∧ chatSubcommand "cmd_7_0" "evt_8_1" 9 "openai" "gpt-4o"
        (.ok (Json.str "hi", Json.obj []))
      = .ok ([⟨"evt_8_1", 9, "cmd_7_0", "ai.chat.completed",
               Json.obj [("provider", Json.str "openai"), ("model", Json.str "gpt-4o"),
                         ("response", Json.str "hi"), ("meta", Json.obj [])]⟩], 0) :=
  ⟨(C5_chat_events "cmd_7_0" "evt_8_1" 9 "openai" "gpt-4o"
      (.error (.providerError "boom"))).1 "boom" rfl,
   (C5_chat_events "cmd_7_0" "evt_8_1" 9 "openai" "gpt-4o"
      (.ok (Json.str "hi", Json.obj []))).2 (Json.str "hi") (Json.obj []) rfl⟩

/-- A string with a nonempty left half is nonempty. -/
theorem append_ne_empty_left (s t : String) (hs : s.length ≠ 0) : s ++ t ≠ "" := by
  intro h
  have hlen := congrArg String.length h
  rw [String.length_append] at hlen
  exact hs (Nat.eq_zero_of_add_eq_zero_right hlen)

/-- A value known to be a string gives an `ok`-string result. -/
theorem ok_str_of_isStr (v : Json) (h : v.isStr = true) :
    ∃ s, Except.ok (ε := ChatFailure) v = Except.ok (Json.str s) := by
  rcases v with _ | _ | _ | s | _ | _
  · simp [Json.isStr] at h
  · simp [Json.isStr] at h
  · simp [Json.isStr] at h
  · exact ⟨s, rfl⟩
  · simp [Json.isStr] at h
  · simp [Json.isStr] at h

/-- The `or first.get("text") or ""` tail of the extraction yields a
string on an object whose truthy `text` is a string. -/
theorem text_pick (ffs : JObj)
    (h : (if (jgetN ffs "text").truthy then (jgetN ffs "text").isStr else true) = true) :
    ∃ s, (match pyGetMethod (Json.obj ffs) "text" with
          | Except.error err => Except.error err
          | Except.ok c2 => if c2.truthy then Except.ok c2 else Except.ok (Json.str ""))
        = Except.ok (Json.str s) := by
  simp only [pyGetMethod]
  by_cases ht : (jgetN ffs "text").truthy
  · simp only [ht, if_true, ite_true] at h ⊢
    exact ok_str_of_isStr _ h
  · simp only [ht, if_false, ite_false, Bool.false_eq_true]
    exact ⟨"", rfl⟩

/-- On a benign openai-style body the extraction yields a string. -/
theorem openai_content_str (d : Json) (h : goodOpenaiData d = true) :
    ∃ s, openai_content d = .ok (Json.str s) := by
  rcases d with _ | _ | _ | _ | _ | fs
  · exact ⟨"", rfl⟩
  · exact ⟨"", rfl⟩
  · exact ⟨"", rfl⟩
  · exact ⟨"", rfl⟩
  · exact ⟨"", rfl⟩
  · simp only [goodOpenaiData] at h
    simp only [openai_content]
    rcases hA : jgetN fs "choices" with _ | b | n | s | xs | ofs
    · rw [hA] at h
      exact ⟨"", by simp [Json.truthy]⟩
    · rw [hA] at h
      cases b
      · exact ⟨"", by simp [Json.truthy]⟩
      · simp [Json.truthy] at h
    · rw [hA] at h
      by_cases hn : n = 0
      · subst hn
        exact ⟨"", by simp [Json.truthy]⟩
      · simp [Json.truthy, hn] at h
    · rw [hA] at h
      by_cases hse : s.isEmpty
      · exact ⟨"", by simp [Json.truthy, hse]⟩
      · simp [Json.truthy, hse] at h
    · rw [hA] at h
      rcases xs with _ | ⟨first, rest⟩
      · exact ⟨"", by simp [Json.truthy]⟩
      · simp only [Json.truthy, List.isEmpty_cons, Bool.not_false, ite_true, if_true,
          pyIndex0] at h ⊢
        rcases first with _ | _ | _ | _ | _ | ffs
        · simp at h
        · simp at h
        · simp at h
        · simp at h
        · simp at h
        · simp only [pyGetMethod] at h ⊢
          rcases hM : jgetN ffs "message" with _ | mb | mn | ms | mxs | mfs
          · rw [hM] at h
            simp only [Json.truthy, ite_false, if_false, Bool.false_eq_true] at h ⊢
            simp only [jgetN, jget, List.find?, Option.map, Option.getD, Json.truthy,
              ite_false, if_false, Bool.false_eq_true] at h ⊢
            exact text_pick ffs h
          · rw [hM] at h
            cases mb
            · simp only [Json.truthy, ite_false, if_false, Bool.false_eq_true] at h ⊢
              simp only [jgetN, jget, List.find?, Option.map, Option.getD, Json.truthy,
                ite_false, if_false, Bool.false_eq_true] at h ⊢
              exact text_pick ffs h
            · simp [Json.truthy] at h
          · rw [hM] at h
            by_cases hn : mn = 0
            · subst hn
              simp only [Json.truthy, ite_false, if_false, Bool.false_eq_true,
                show ((0 : Int) != 0) = false from rfl] at h ⊢
              simp only [jgetN, jget, List.find?, Option.map, Option.getD, Json.truthy,
                ite_false, if_false, Bool.false_eq_true] at h ⊢
              exact text_pick ffs h
            · simp [Json.truthy, hn] at h
          · rw [hM] at h
            by_cases hse : ms.isEmpty
            · simp only [Json.truthy, hse, Bool.not_true, ite_false, if_false,
                Bool.false_eq_true] at h ⊢
              simp only [jgetN, jget, List.find?, Option.map, Option.getD, Json.truthy,
                ite_false, if_false, Bool.false_eq_true] at h ⊢
              exact text_pick ffs h
            · simp [Json.truthy, hse] at h
          · rw [hM] at h
            rcases mxs with _ | ⟨y, ys⟩
            · simp only [Json.truthy, List.isEmpty_nil, Bool.not_true, ite_false, if_false,
                Bool.false_eq_true] at h ⊢
              simp only [jgetN, jget, List.find?, Option.map, Option.getD, Json.truthy,
                ite_false, if_false, Bool.false_eq_true] at h ⊢
              exact text_pick ffs h
            · simp [Json.truthy] at h
          · rw [hM] at h
            rcases mfs with _ | ⟨mp, mps⟩
            · simp only [Json.truthy, List.isEmpty_nil, Bool.not_true, ite_false, if_false,
                Bool.false_eq_true, pyGetMethod] at h ⊢
              simp only [jgetN, jget, List.find?, Option.map, Option.getD, Json.truthy,
                ite_false, if_false, Bool.false_eq_true] at h ⊢
              exact text_pick ffs h
            · simp only [Json.truthy, List.isEmpty_cons, Bool.not_false, ite_true, if_true,
                pyGetMethod] at h ⊢
              rcases hC : jgetN (mp :: mps) "content" with _ | cb | cn | cs | cxs | cfs
              · rw [hC] at h
                simp only [Json.truthy, ite_false, if_false, Bool.false_eq_true] at h ⊢
                exact text_pick ffs h
              · rw [hC] at h
                cases cb
                · simp only [Json.truthy, ite_false, if_false, Bool.false_eq_true] at h ⊢
                  exact text_pick ffs h
                · simp [Json.truthy, Json.isStr] at h
              · rw [hC] at h
                by_cases hn : cn = 0
                · subst hn
                  simp only [Json.truthy, ite_false, if_false, Bool.false_eq_true,
                    show ((0 : Int) != 0) = false from rfl] at h ⊢
                  exact text_pick ffs h
                · simp [Json.truthy, Json.isStr, hn] at h
              · rw [hC] at h
                by_cases hse : cs.isEmpty
                · simp only [Json.truthy, hse, Bool.not_true, ite_false, if_false,
                    Bool.false_eq_true] at h ⊢
                  exact text_pick ffs h
                · simp only [Json.truthy, hse, Bool.not_false, ite_true, if_true]
                  exact ⟨cs, rfl⟩
              · rw [hC] at h
                rcases cxs with _ | ⟨y, ys⟩
                · simp only [Json.truthy, List.isEmpty_nil, Bool.not_true, ite_false,
                    if_false, Bool.false_eq_true] at h ⊢
                  exact text_pick ffs h
                · simp [Json.truthy, Json.isStr] at h
              · rw [hC] at h
                rcases cfs with _ | ⟨z, zs⟩
                · simp only [Json.truthy, List.isEmpty_nil, Bool.not_true, ite_false,
                    if_false, Bool.false_eq_true] at h ⊢
                  exact text_pick ffs h
                · simp [Json.truthy, Json.isStr] at h
    · rw [hA] at h
      rcases ofs with _ | ⟨p, ps⟩
      · exact ⟨"", by simp [Json.truthy]⟩
      · simp [Json.truthy] at h

/-- On a benign anthropic body the extraction yields a string. -/
theorem anthropic_content_str (d : Json) (h : goodAnthropicData d = true) :
    ∃ s, anthropic_content d = .ok (Json.str s) := by
  rcases d with _ | _ | _ | _ | _ | fs
  · exact ⟨"", rfl⟩
  · exact ⟨"", rfl⟩
  · exact ⟨"", rfl⟩
  · exact ⟨"", rfl⟩
  · exact ⟨"", rfl⟩
  · simp only [goodAnthropicData] at h
    simp only [anthropic_content]
    rcases hA : jgetN fs "content" with _ | b | n | s | xs | ofs
    · rw [hA] at h
      exact ⟨"", by simp [Json.truthy]⟩
    · rw [hA] at h
      cases b
      · exact ⟨"", by simp [Json.truthy]⟩
      · simp [Json.truthy] at h
    · rw [hA] at h
      by_cases hn : n = 0
      · subst hn
        exact ⟨"", by simp [Json.truthy]⟩
      · simp [Json.truthy, hn] at h
    · rw [hA] at h
      by_cases hse : s.isEmpty
      · exact ⟨"", by simp [Json.truthy, hse]⟩
      · simp [Json.truthy, hse] at h
    · rw [hA] at h
      rcases xs with _ | ⟨first, rest⟩
      · exact ⟨"", by simp [Json.truthy]⟩
      · simp only [Json.truthy, List.isEmpty_cons, Bool.not_false, ite_true, if_true,
          pyIndex0] at h ⊢
        rcases first with _ | _ | _ | _ | _ | ffs
        · simp at h
        · simp at h
        · simp at h
        · simp at h
        · simp at h
        · exact text_pick ffs h
    · rw [hA] at h
      rcases ofs with _ | ⟨p, ps⟩
      · exact ⟨"", by simp [Json.truthy]⟩
      · simp [Json.truthy] at h

/-- An openai-style request on a benign outcome ends in an `ok` string
with an object meta, or in a `ProviderError` with a nonempty message. -/
theorem request_openai_good (outcome : PostOutcome) (url : String)
    (h : ∀ d, outcome = .ok d → goodOpenaiData d = true) :
    (∃ s m, request_openai_compatible outcome url = .ok (Json.str s, Json.obj m))
    ∨ (∃ msg, request_openai_compatible outcome url = .error (.providerError msg) ∧ msg ≠ "") := by
  cases outcome with
  | ok d =>
    obtain ⟨s, hs⟩ := openai_content_str d (h d rfl)
    by_cases hse : s.isEmpty
    · right
      exact ⟨"Empty response from provider",
        by simp [request_openai_compatible, post_json, hs, Json.truthy, hse], by decide⟩
    · left
      exact ⟨s, [("request_url", Json.str url)],
        by simp [request_openai_compatible, post_json, hs, Json.truthy, hse]⟩
  | httpError code detail =>
    right
    refine ⟨"HTTP " ++ toString code ++ ": " ++ detail, rfl, ?_⟩
    rw [String.append_assoc, String.append_assoc]
    exact append_ne_empty_left _ _ (by decide)
  | urlError reason =>
    right
    exact ⟨"Connection error: " ++ reason, rfl, append_ne_empty_left _ _ (by decide)⟩
  | jsonError =>
    right
    exact ⟨"Invalid JSON response", rfl, by decide⟩

/-- The anthropic analogue of `request_openai_good`. -/
theorem request_anthropic_good (outcome : PostOutcome) (url : String)
    (h : ∀ d, outcome = .ok d → goodAnthropicData d = true) :
    (∃ s m, request_anthropic outcome url = .ok (Json.str s, Json.obj m))
    ∨ (∃ msg, request_anthropic outcome url = .error (.providerError msg) ∧ msg ≠ "") := by
  cases outcome with
  | ok d =>
    obtain ⟨s, hs⟩ := anthropic_content_str d (h d rfl)
    by_cases hse : s.isEmpty
    · right
      exact ⟨"Empty response from provider",
        by simp [request_anthropic, post_json, hs, Json.truthy, hse], by decide⟩
    · left
      exact ⟨s, [("request_url", Json.str url)],
        by simp [request_anthropic, post_json, hs, Json.truthy, hse]⟩
  | httpError code detail =>
    right
    refine ⟨"HTTP " ++ toString code ++ ": " ++ detail, rfl, ?_⟩
    rw [String.append_assoc, String.append_assoc]
    exact append_ne_empty_left _ _ (by decide)
  | urlError reason =>
    right
    exact ⟨"Connection error: " ++ reason, rfl, append_ne_empty_left _ _ (by decide)⟩
  | jsonError =>
    right
    exact ⟨"Invalid JSON response", rfl, by decide⟩

/-- C6 is false as stated: a response that is valid JSON but oddly shaped
makes `request_chat` raise an uncaught `AttributeError` (`choices[0]` is
the integer `42`, and integers have no `.get`), which is not a
`ProviderError`; and a well-shaped-enough response whose `content` field is
the integer `5` is returned as content that is not a string. -/
theorem C6_counterexample :
    request_chat (fun _ => some "k") (.ok (Json.obj [("choices", Json.arr [Json.num 42])]))
        "openai" none none
      = .error (.pythonError "AttributeError: object has no attribute get")
    ∧ request_chat (fun _ => some "k")
        (.ok (Json.obj [("choices", Json.arr [Json.obj [("message",
            Json.obj [("content", Json.num 5)])]])]))
        "openai" none none
      = .ok (Json.num 5,
          Json.obj [("request_url", Json.str "https://api.openai.com/v1/chat/completions")]) := by
  constructor <;> rfl

/-- C6 (amended): whenever the parsed response body is benign for the
selected provider's kind (every error outcome is; an `ok` body must only
have object-shaped choices/message/content parts and string-shaped final
content), `request_chat` either returns `(content, meta)` with `content` a
string and `meta` a mapping, or fails with a `ProviderError` carrying a
nonempty message; in particular HTTP errors, connection errors and invalid
JSON responses are all surfaced as `ProviderError`s. On a truthy non-object
part of an `ok` body, an uncaught `AttributeError`/`TypeError` escapes
instead. -/
theorem C6_request_chat_channels (env : String → Option String) (outcome : PostOutcome)
    (provider : String) (base_url api_key : Option String)
    (hgood : ∀ cfg, (PROVIDERS.find? (fun p => p.1 = provider)).map (fun p => p.2) = some cfg →
      goodOutcomeFor cfg.kind outcome = true) :
    (∃ s m, request_chat env outcome provider base_url api_key = .ok (Json.str s, Json.obj m))
    ∨ (∃ msg, request_chat env outcome provider base_url api_key
        = .error (.providerError msg) ∧ msg ≠ "") := by
  unfold request_chat
  cases hfind : (PROVIDERS.find? (fun p => p.1 = provider)).map (fun p => p.2) with
  | none =>
    right
    exact ⟨"Unsupported provider: " ++ provider, rfl, append_ne_empty_left _ _ (by decide)⟩
  | some cfg =>
    have hg := hgood cfg hfind
    by_cases hmiss : (optTruthy cfg.api_key_env && !optTruthy (resolvedKey env cfg api_key)) = true
    · right
      refine ⟨"Missing API key. Set " ++ cfg.api_key_env.getD "" ++ " or pass --api-key for "
          ++ provider ++ ".", by simp [hmiss], ?_⟩
      rw [String.append_assoc, String.append_assoc, String.append_assoc]
      exact append_ne_empty_left _ _ (by decide)
    · simp only [Bool.not_eq_true] at hmiss
      simp only [hmiss, Bool.false_eq_true, if_false, ite_false]
      by_cases hkind : cfg.kind = "anthropic"
      · simp only [hkind, if_true, ite_true]
        apply request_anthropic_good
        intro d hd
        rw [hd, hkind] at hg
        simpa [goodOutcomeFor] using hg
      · simp only [hkind, if_false, ite_false]
        apply request_openai_good
        intro d hd
        rw [hd] at hg
        simpa [goodOutcomeFor, hkind] using hg

/-- Witness: the amended C6 applied to the openai provider with a benign
response body carrying the content `"hi"`. -/
theorem C6_witness :
    (∃ s m, request_chat (fun _ => some "k")
        (.ok (Json.obj [("choices", Json.arr [Json.obj [("message",
            Json.obj [("content", Json.str "hi")])]])]))
        "openai" none none
      = .ok (Json.str s, Json.obj m))
    ∨ (∃ msg, request_chat (fun _ => some "k")
        (.ok (Json.obj [("choices", Json.arr [Json.obj [("message",
            Json.obj [("content", Json.str "hi")])]])]))
        "openai" none none
      = .error (.providerError msg) ∧ msg ≠ "") :=
  C6_request_chat_channels (fun _ => some "k") _ "openai" none none (by
    intro cfg hcfg
    rw [show ((PROVIDERS.find? (fun p => p.1 = "openai")).map (fun p => p.2))
        = some ⟨"openai", "https://api.openai.com/v1", some "OPENAI_API_KEY", "openai"⟩
      from rfl] at hcfg
    cases hcfg
    decide)

/-- C7 is false as stated: the record built by `make_cmd` does not consist
of exactly the fields `id`, `ts_ms`, `source`, `op`, `args` — it also
carries the envelope fields `@type` and `@v`. -/
theorem C7_counterexample :
    (make_cmd ⟨0⟩ "sess_local" "ui.create" (Json.obj []) "cli" "local" 0).map Prod.fst
      ≠ ["id", "ts_ms", "source", "op", "args"]
    ∧ "@type" ∈ (make_cmd ⟨0⟩ "sess_local" "ui.create" (Json.obj []) "cli" "local" 0).map Prod.fst
    ∧ "@type" ∉ ["id", "ts_ms", "source", "op", "args"] := by
  decide

/-- C7 (amended): every record appended to the commands log (each call
site appends a `make_cmd` record) is a self-contained JSON object whose
fields are exactly `@type`, `@v`, `id`, `ts_ms`, `source`, `op` and
`args`, where `id` is a string namespaced by `"cmd"`, `ts_ms` is the
creation timestamp, and `source` is the `{kind, who, session}` mapping. -/
theorem C7_command_record_shape (g : IdGen) (session op : String) (args : Json)
    (source_kind who : String) (ts : Int) :
    (make_cmd g session op args source_kind who ts).map Prod.fst
      = ["@type", "@v", "id", "ts_ms", "source", "op", "args"]
    ∧ (∃ rest, jgetN (make_cmd g session op args source_kind who ts) "id"
        = Json.str ("cmd" ++ rest))
    ∧ jgetN (make_cmd g session op args source_kind who ts) "ts_ms" = Json.num ts
    ∧ jgetN (make_cmd g session op args source_kind who ts) "source"
      = Json.obj [("kind", Json.str source_kind), ("who", Json.str who),
                  ("session", Json.str session)]
    ∧ jgetN (make_cmd g session op args source_kind who ts) "op" = Json.str op
    ∧ jgetN (make_cmd g session op args source_kind who ts) "args" = args :=
  ⟨rfl, ⟨"_" ++ toString ts ++ "_" ++ toString g.counter, rfl⟩, rfl, rfl, rfl, rfl⟩

/-- C8: applying a Command whose `op` is not a recognized operation fails
with an Unrecognized-Operation error, leaves the caller's State unchanged
and appends nothing to the event log (atomicity: the rejected call
produces no partial mutation). -/
theorem C8_unrecognized_op (st : KuhulState) (log : List (String × Json)) (cmd : JObj)
    (fid : String) (h : ∀ r ∈ recognizedOps, jgetN cmd "op" ≠ Json.str r) :
    engineTry st log cmd fid = ((st, log), false)
    ∧ ∃ msg, apply_command st cmd fid = .error msg := by
  have happ : ∃ msg, apply_command st cmd fid = .error msg := by
    unfold apply_command
    rcases hop : jgetN cmd "op" with _ | _ | _ | s | _ | _
    · exact ⟨_, rfl⟩
    · exact ⟨_, rfl⟩
    · exact ⟨_, rfl⟩
    · have h1 : s ≠ "ui.create" := fun he =>
        h "ui.create" (by decide) (by rw [hop, he])
      have h2 : s ≠ "ui.theme.apply" := fun he =>
        h "ui.theme.apply" (by decide) (by rw [hop, he])
      have h3 : s ≠ "svg.export" := fun he =>
        h "svg.export" (by decide) (by rw [hop, he])
      have h4 : s ≠ "ai.chat" := fun he =>
        h "ai.chat" (by decide) (by rw [hop, he])
      simp only [h1, h2, h3, h4, if_false, ite_false]
      exact ⟨_, rfl⟩
    · exact ⟨_, rfl⟩
    · exact ⟨_, rfl⟩
  obtain ⟨msg, hmsg⟩ := happ
  constructor
  · unfold engineTry
    rw [hmsg]
  · exact ⟨msg, hmsg⟩

/-- Witness: C8 applied to a Command with the unrecognized op `"bogus"`. -/
theorem C8_witness :
    engineTry KuhulState.init [] [("op", Json.str "bogus")] "cmp_0_0"
      = ((KuhulState.init, []), false)
    ∧ ∃ msg, apply_command KuhulState.init [("op", Json.str "bogus")] "cmp_0_0"
        = .error msg :=
  C8_unrecognized_op KuhulState.init [] [("op", Json.str "bogus")] "cmp_0_0" (by decide)

/-- C9: during replay, a `state.changed`/`component.created` event whose
`data.component` is not a JSON object (absent, a string, a number, a
boolean, null, or a list) is silently skipped: nothing is appended and the
step succeeds with the State unchanged. -/
theorem C9_nonobject_component_skipped (st : KuhulState) (e : JObj) (fs : JObj)
    (htopic : jgetN e "topic" = Json.str "state.changed")
    (hdata : jgetD e "data" (Json.obj []) = Json.obj fs)
    (hkind : jgetN fs "kind" = Json.str "component.created")
    (hcomp : (jgetN fs "component").isObj = false) :
    replayStep st e = .ok st := by
  unfold replayStep
  rw [hdata]
  simp only [htopic, ne_eq, not_true_eq_false, if_false, ite_false]
  rcases fs with _ | ⟨p, ps⟩
  · simp [jgetN, jget, List.find?] at hkind
  · simp only [Json.truthy, List.isEmpty_cons, Bool.not_false, ite_true, if_true, hkind]
    rcases hc : jgetN (p :: ps) "component" with _ | _ | _ | _ | _ | cfs
    · rfl
    · rfl
    · rfl
    · rfl
    · rfl
    · rw [hc] at hcomp
      simp [Json.isObj] at hcomp

/-- Witness: C9 applied to a `component.created` event whose component is
the string `"x"`. -/
theorem C9_witness :
    replayStep KuhulState.init
        [("topic", Json.str "state.changed"),
         ("data", Json.obj [("kind", Json.str "component.created"),
                            ("component", Json.str "x")])]
      = .ok KuhulState.init :=
  C9_nonobject_component_skipped KuhulState.init _
    [("kind", Json.str "component.created"), ("component", Json.str "x")]
    (by decide) (by decide) (by decide) (by decide)

/-- With a falsy key argument, a configured provider whose environment
variable resolves to a falsy value makes `request_chat` fail with the
missing-key `ProviderError`, whatever the network outcome. -/
theorem request_chat_missing_key (env : String → Option String)
    (provider envName : String) (cfg : ProviderConfig)
    (base_url api_key : Option String) (outcome outcome' : PostOutcome)
    (hfind : (PROVIDERS.find? (fun p => p.1 = provider)).map (fun p => p.2) = some cfg)
    (hcfg : cfg.api_key_env = some envName)
    (hne : envName.isEmpty = false)
    (hak : optTruthy api_key = false)
    (henv : optTruthy (env envName) = false) :
    request_chat env outcome provider base_url api_key
      = .error (.providerError ("Missing API key. Set " ++ envName
          ++ " or pass --api-key for " ++ provider ++ "."))
    ∧ request_chat env outcome provider base_url api_key
      = request_chat env outcome' provider base_url api_key := by
  have hkey : resolvedKey env cfg api_key = env envName := by
    unfold resolvedKey
    rw [hak, hcfg]
    simp [optTruthy, hne]
  have hcond : (optTruthy cfg.api_key_env && !optTruthy (resolvedKey env cfg api_key)) = true := by
    rw [hkey, hcfg, henv]
    simp [optTruthy, hne]
  have key : ∀ oc : PostOutcome, request_chat env oc provider base_url api_key
      = .error (.providerError ("Missing API key. Set " ++ envName
          ++ " or pass --api-key for " ++ provider ++ ".")) := by
    intro oc
    unfold request_chat
    rw [hfind]
    simp only [hcond, if_true, ite_true]
    rw [hcfg]
    rfl
  exact ⟨key outcome, (key outcome).trans (key outcome').symm⟩

/-- C10: for every supported provider (the localhost `inference` provider
included), when the `api_key` argument is falsy and the provider's API-key
environment variable is unset or empty, `request_chat` fails with a
`ProviderError` whose message names that environment variable, and does so
independently of the network outcome — no request is made. -/
theorem C10_missing_api_key (provider : String) (cfg : ProviderConfig)
    (hmem : (provider, cfg) ∈ PROVIDERS)
    (env : String → Option String) (base_url api_key : Option String)
    (hak : optTruthy api_key = false)
    (henv : optTruthy (env (cfg.api_key_env.getD "")) = false)
    (outcome outcome' : PostOutcome) :
    request_chat env outcome provider base_url api_key
      = .error (.providerError ("Missing API key. Set " ++ cfg.api_key_env.getD ""
          ++ " or pass --api-key for " ++ provider ++ "."))
    ∧ request_chat env outcome provider base_url api_key
      = request_chat env outcome' provider base_url api_key := by
  fin_cases hmem <;>
    (apply request_chat_missing_key <;> first | rfl | decide | exact hak | exact henv)

/-- Witness: C10 applied to the `inference` provider with no key argument
and an empty environment, under two different network outcomes. -/
theorem C10_witness :
    request_chat (fun _ => none) .jsonError "inference" none none
      = .error (.providerError ("Missing API key. Set "
          ++ (some "INFERENCE_API_KEY").getD "" ++ " or pass --api-key for "
          ++ "inference" ++ "."))
    ∧ request_chat (fun _ => none) .jsonError "inference" none none
      = request_chat (fun _ => none) (.ok Json.null) "inference" none none :=
  C10_missing_api_key "inference"
    ⟨"inference", "http://localhost:11434/v1", some "INFERENCE_API_KEY", "openai"⟩
    (by decide) (fun _ => none) none none (by decide) (by decide) .jsonError (.ok Json.null)

end Kuhul
